import Mathlib

/-!
Verification of the streamia-server backend against its natural-language
specification.  The TypeScript handlers are shallowly embedded as pure Lean
functions: Mongo collections become lists of documents, each handler maps a
request plus the visible store state to a response plus the successor state,
and the wall clock is passed explicitly in milliseconds.
-/

namespace Streamia

/-- Model of crypto.createHash("sha256")...digest("hex"): an ideal injective hash. -/
def sha256Hex (s : String) : String := "sha256:" ++ s

/-- Model of bcryptjs.hash with 10 salt rounds: an ideal injective hash. -/
def bcryptHash (p : String) : String := "bcrypt:" ++ p

/-- The slice of process.env the token issuer and verifier read. -/
structure Env where
  jwtSecret : Option String
  jwtExpiresIn : Option String
  nodeEnv : String
  deriving DecidableEq, Repr

/-- A signed JWT as produced by jwt.sign inside generateToken: the payload
fields, the secret used to sign, and the configured lifetime. -/
structure SignedToken where
  payloadId : String
  payloadEmail : String
  secret : String
  expiresIn : String
  deriving DecidableEq, Repr

/-- Embeds generateToken (utils/helpers revision kept in emailService.ts, lines
80-89): the signing secret is process.env.JWT_SECRET or the literal fallback
string, the lifetime is JWT_EXPIRES_IN or "2h".  The function always signs;
the source contains no environment test and no refusal path. -/
def generateToken (env : Env) (userId email : String) : SignedToken :=
  { payloadId := userId
    payloadEmail := email
    secret := env.jwtSecret.getD "fallback_secret_key"
    expiresIn := env.jwtExpiresIn.getD "2h" }

/-- Result of the underlying jwt.verify call, given the secret and the token:
either a decoded payload or a thrown JsonWebTokenError. -/
inductive JwtVerifyResult where
  | decoded (id email : String)
  | jwtError
  deriving DecidableEq, Repr

/-- Embeds verifyToken (emailService.ts lines 96-109): jwt.verify is run with
process.env.JWT_SECRET or the same literal fallback; any thrown error is
caught and mapped to null. -/
def verifyToken (env : Env) (jwtVerify : String → String → JwtVerifyResult)
    (token : String) : Option (String × String) :=
  match jwtVerify (env.jwtSecret.getD "fallback_secret_key") token with
  | .decoded id email => some (id, email)
  | .jwtError => none

/-- Helper for splitOnSpace: accumulate the current part in reverse. -/
def splitOnSpaceAux (cs : List Char) (acc : List Char) : List String :=
  match cs with
  | [] => [String.mk acc.reverse]
  | c :: rest =>
      if c = ' ' then String.mk acc.reverse :: splitOnSpaceAux rest []
      else splitOnSpaceAux rest (c :: acc)

/-- The JavaScript authHeader.split(" "): parts between single spaces, empty
parts preserved. -/
def splitOnSpace (s : String) : List String := splitOnSpaceAux s.data []

/-- Embeds extractTokenFromHeader (emailService.ts lines 117-122): a falsy
header yields null; otherwise split on a space and require exactly the two
parts "Bearer" and the token. -/
def extractTokenFromHeader (authHeader : Option String) : Option String :=
  match authHeader with
  | none => none
  | some h =>
    if h = "" then none
    else
      match splitOnSpace h with
      | [p0, p1] => if p0 = "Bearer" then some p1 else none
      | _ => none

/-- What the middleware observes from its call to the verifier: a decoded
payload, the null result of a failed verification, or an exception escaping
the call into the middleware's try block. -/
inductive VerifyOutcome where
  | ok (id email : String)
  | nullResult
  | thrown
  deriving DecidableEq, Repr

/-- Outcome of the authenticate guard: a JSON rejection with a status, or
the request proceeding with userId and userEmail attached. -/
inductive GuardOutcome where
  | reject (status : Nat) (error : String)
  | proceed (userId userEmail : String)
  deriving DecidableEq, Repr

/-- Embeds authenticate (authMiddleware.ts lines 21-50): extract the bearer
token, reject 401 on a falsy token, reject 401 when verification yields null,
otherwise attach the payload and continue; the surrounding try/catch maps any
exception escaping the check to a 500 response. -/
def authenticate (authHeader : Option String) (verify : String → VerifyOutcome) :
    GuardOutcome :=
  match extractTokenFromHeader authHeader with
  | none => .reject 401 "No token provided"
  | some token =>
    if token = "" then .reject 401 "No token provided"
    else
      match verify token with
      | .thrown => .reject 500 "Internal server error"
      | .nullResult => .reject 401 "Invalid or expired token"
      | .ok id email => .proceed id email

/-- A stored movie document (models/Movie): only the fields the listed handlers
read are carried.  createdAt is a millisecond timestamp. -/
structure Movie where
  id : String
  title : String
  category : String
  externalId : Option String
  createdAt : Nat
  deriving DecidableEq, Repr

/-- The catalog store as one request sees it: reachable with its documents, or
unreachable, in which case every query throws. -/
inductive StoreState where
  | reachable (movies : List Movie)
  | unreachable
  deriving DecidableEq, Repr

/-- Externally observable side effects of one handler run. -/
inductive Effect where
  | storeQuery
  | storeWrite
  | providerFetch
  deriving DecidableEq, Repr

/-- Stable descending insertion by createdAt; with sortByCreatedAtDesc it
models the store's sort({createdAt: -1}). -/
def insertByCreatedAt (m : Movie) : List Movie → List Movie
  | [] => [m]
  | x :: xs =>
      if m.createdAt ≤ x.createdAt then x :: insertByCreatedAt m xs
      else m :: x :: xs

/-- Stable sort of the stored movies by createdAt, newest first. -/
def sortByCreatedAtDesc : List Movie → List Movie
  | [] => []
  | x :: xs => insertByCreatedAt x (sortByCreatedAtDesc xs)

/-- The query Movie.find().sort(createdAt descending).limit(100) issued by
getMovies against a reachable store. -/
def storeListQuery (movies : List Movie) : List Movie :=
  (sortByCreatedAtDesc movies).take 100

/-- Response shape of GET /api/movies. -/
structure MoviesResponse where
  status : Nat
  source : Option String
  data : List Movie
  total : Option Nat
  message : Option String
  error : Option String
  deriving DecidableEq, Repr

/-- Embeds getMovies (movieController.ts lines 250-273): one store query; an
empty result gives a 200 with a message and no source tag; a non-empty result
is returned tagged source cloudinary; a throwing query is caught and mapped to
a 500 error.  The effect trace records every store or provider interaction the
handler performs; the source awaits nothing besides the single Movie.find. -/
def getMovies : StoreState → MoviesResponse × List Effect
  | .unreachable =>
      ({ status := 500, source := none, data := [], total := none, message := none,
         error := some "Error getting movies" }, [.storeQuery])
  | .reachable ms =>
      let movies := storeListQuery ms
      if movies.length = 0 then
        ({ status := 200, source := none, data := [], total := none,
           message := some "No movies available. Upload some movies to get started!",
           error := none }, [.storeQuery])
      else
        ({ status := 200, source := some "cloudinary", data := movies,
           total := some movies.length, message := none, error := none }, [.storeQuery])

/-- One entry of the module-level in-memory cache of movieController.ts. -/
structure CacheEntry where
  data : List Movie
  expires : Nat
  deriving DecidableEq, Repr

/-- CACHE_TTL (movieController.ts line 71): sixty seconds in milliseconds. -/
def CACHE_TTL : Nat := 60 * 1000

/-- Embeds getFromCache (movieController.ts lines 79-87) over the cache map as
an association list: a missing key returns null, an entry past its expiry is
deleted and null is returned, otherwise the data is returned.  The result pairs
the returned value with the map after the call. -/
def getFromCache (cache : List (String × CacheEntry)) (now : Nat) (key : String) :
    Option (List Movie) × List (String × CacheEntry) :=
  match cache.find? (fun kv => kv.1 == key) with
  | none => (none, cache)
  | some kv =>
      if kv.2.expires < now then
        (none, cache.filter (fun kv2 => kv2.1 != key))
      else
        (some kv.2.data, cache)

/-- Embeds setCache (movieController.ts lines 95-97): Map.set replaces an
existing entry for the key or inserts a new one, with expiry now + CACHE_TTL. -/
def setCache (cache : List (String × CacheEntry)) (now : Nat) (key : String)
    (data : List Movie) : List (String × CacheEntry) :=
  if cache.any (fun kv => kv.1 == key) then
    cache.map (fun kv => if kv.1 == key then (key, ⟨data, now + CACHE_TTL⟩) else kv)
  else
    cache ++ [(key, ⟨data, now + CACHE_TTL⟩)]

/-- A stored account document (models/User.ts).  passwordResetExpires is a
millisecond timestamp.  id models the Mongo ObjectId; documents carry distinct
ids. -/
structure StoredUser where
  id : String
  firstName : String
  lastName : String
  age : Nat
  email : String
  password : String
  passwordResetToken : Option String
  passwordResetExpires : Option Nat
  deriving DecidableEq, Repr

/-- The payload of a registration request after registerSchema validation, as
destructured from validation.data by registerUser. -/
structure RegisterData where
  firstName : String
  lastName : String
  age : Nat
  email : String
  password : String
  deriving DecidableEq, Repr

/-- The user object serialized in registerUser's 201 body, as the list of
(key, value) pairs of the JSON object literal at userController.ts lines 53-58. -/
def registerResponseFields (u : StoredUser) : List (String × String) :=
  [("id", u.id), ("firstName", u.firstName), ("lastName", u.lastName),
   ("email", u.email)]

/-- Response shape of POST /api/users/register. -/
structure RegisterResponse where
  status : Nat
  message : Option String
  error : Option String
  userFields : Option (List (String × String))
  deriving DecidableEq, Repr

/-- The fresh ObjectId User.create assigns, modelled as a function of the
store contents only. -/
def freshUserId (db : List StoredUser) : String := "uid" ++ toString db.length

/-- Embeds registerUser (userController.ts lines 16-64) after validation: a
duplicate email gives 409 with no write; otherwise the account is stored with
the bcrypt hash of the password and the 201 body carries id, firstName,
lastName and email only. -/
def registerUser (data : RegisterData) (db : List StoredUser) :
    RegisterResponse × List StoredUser :=
  match db.find? (fun u => u.email == data.email) with
  | some _ =>
      ({ status := 409, message := none, error := some "This email is already used",
         userFields := none }, db)
  | none =>
      let newUser : StoredUser :=
        { id := freshUserId db, firstName := data.firstName,
          lastName := data.lastName, age := data.age, email := data.email,
          password := bcryptHash data.password,
          passwordResetToken := none, passwordResetExpires := none }
      ({ status := 201, message := some "Created account successfully.",
         error := none, userFields := some (registerResponseFields newUser) },
       db ++ [newUser])

/-- Response shape shared by the password-recovery handlers. -/
structure SimpleResponse where
  status : Nat
  message : Option String
  error : Option String
  deriving DecidableEq, Repr

/-- Embeds forgotPassword (userController.ts lines 273-319): 400 when no
account has the submitted email; otherwise the sha256 hash of a fresh random
token is saved on the account with a one-hour expiry, then the reset mail is
sent — 200 on success, 500 (with the save already persisted) when sendMail
throws.  resetTokenRandom stands for the crypto.randomBytes draw and mailOk
for whether sendMail succeeds. -/
def forgotPassword (db : List StoredUser) (emailReq : String)
    (resetTokenRandom : String) (now : Nat) (mailOk : Bool) :
    SimpleResponse × List StoredUser :=
  match db.find? (fun u => u.email == emailReq) with
  | none =>
      ({ status := 400, message := none,
         error := some "There is no user with this email address." }, db)
  | some u =>
      let hashedToken := sha256Hex resetTokenRandom
      let db1 := db.map (fun v =>
        if v.id == u.id then
          { v with passwordResetToken := some hashedToken,
                   passwordResetExpires := some (now + 3600000) }
        else v)
      if mailOk then
        ({ status := 200, message := some "Email sent to reset password",
           error := none }, db1)
      else
        ({ status := 500, message := none,
           error := some "Error processing the request" }, db1)

/-- The special characters accepted by the zod password regex in validators. -/
def specialChars : List Char :=
  ['!', '@', '#', '$', '%', '^', '&', '*', '(', ')', '_', '+', '-', '=', '[',
   ']', Char.ofNat 123, Char.ofNat 125, ';', Char.ofNat 39, ':', '"', '\\',
   '|', ',', '.', '<', '>', '/', '?']

/-- The zod newPassword rule: at least 8 characters with an uppercase letter,
a lowercase letter, a digit and a special character. -/
def validNewPassword (p : String) : Bool :=
  decide (8 ≤ p.data.length) && p.data.any Char.isUpper && p.data.any Char.isLower
    && p.data.any Char.isDigit && p.data.any (fun c => specialChars.contains c)

/-- resetPasswordSchema (validators): non-empty token, valid new password, and
a matching confirmation. -/
def resetPasswordValid (token newPassword confirmPassword : String) : Bool :=
  decide (1 ≤ token.data.length) && validNewPassword newPassword
    && (newPassword == confirmPassword)

/-- Embeds resetPassword (userController.ts lines 326-364): validate the body;
find a user whose stored passwordResetToken equals the sha256 hash of the
submitted token and whose passwordResetExpires is strictly in the future; 400
when none matches; otherwise store the bcrypt hash of the new password and
clear both reset fields. -/
def resetPassword (db : List StoredUser) (token newPassword confirmPassword : String)
    (now : Nat) : SimpleResponse × List StoredUser :=
  if !resetPasswordValid token newPassword confirmPassword then
    ({ status := 400, message := none, error := some "Validation error" }, db)
  else
    let hashedToken := sha256Hex token
    match db.find? (fun u =>
        u.passwordResetToken == some hashedToken
          && (match u.passwordResetExpires with
              | some e => decide (now < e)
              | none => false)) with
    | none =>
        ({ status := 400, message := none,
           error := some "Token inválido o expirado" }, db)
    | some u =>
        let db1 := db.map (fun v =>
          if v.id == u.id then
            { v with password := bcryptHash newPassword,
                     passwordResetToken := none, passwordResetExpires := none }
          else v)
        ({ status := 200, message := some "Updated password succesfully",
           error := none }, db1)

/-- A stored rating document (ratingModel): one user's score for one movie. -/
structure RatingRec where
  userId : String
  movieId : String
  rating : Int
  deriving DecidableEq, Repr

/-- The body of POST /api/ratings; absent fields are none, and an empty
movieId string is falsy in the handler's check. -/
structure RatingBody where
  movieId : Option String
  rating : Option Int
  deriving DecidableEq, Repr

/-- Response shape of the ratings endpoints. -/
structure RatingResponse where
  status : Nat
  message : Option String
  deriving DecidableEq, Repr

/-- Models existing.save() after mutating the found document: the first rating
matching (userId, movieId) gets its value replaced; the rest are untouched. -/
def updateFirstRating : List RatingRec → String → String → Int → List RatingRec
  | [], _, _, _ => []
  | r :: rs, uid, mid, v =>
      if r.userId == uid && r.movieId == mid then { r with rating := v } :: rs
      else r :: updateFirstRating rs uid mid v

/-- Embeds addRating (ratingsController lines 15-50): a falsy movieId or an
absent rating gives 400; a rating outside 1..5 gives 400; an existing rating
for (userId, movieId) is updated in place and saved; otherwise a new rating
document is saved. -/
def addRating (userId : String) (body : RatingBody) (db : List RatingRec) :
    RatingResponse × List RatingRec :=
  if body.movieId.getD "" == "" || body.rating.isNone then
    ({ status := 400,
       message := some "Missing required fields: movieId, rating" }, db)
  else
    let mid := body.movieId.getD ""
    let v := body.rating.getD 0
    if decide (v < 1) || decide (v > 5) then
      ({ status := 400, message := some "Rating must be between 1 and 5" }, db)
    else
      match db.find? (fun r => r.userId == userId && r.movieId == mid) with
      | some _ =>
          ({ status := 200, message := some s!"Rating updated: {v} stars" },
           updateFirstRating db userId mid v)
      | none =>
          ({ status := 201, message := some s!"Rating created: {v} stars" },
           db ++ [{ userId := userId, movieId := mid, rating := v }])

/-- A stored favorite document (models/Favorites, the movieId-keyed revision
the controller uses).  id models the Mongo ObjectId; documents carry distinct
ids. -/
structure FavoriteRec where
  id : Nat
  userId : String
  movieId : String
  title : String
  poster : String
  note : String
  deriving DecidableEq, Repr

/-- The body of POST /api/favorites; empty strings are falsy in the handler's
required-field check and note may be absent. -/
structure FavoriteBody where
  movieId : String
  title : String
  poster : String
  note : Option String
  deriving DecidableEq, Repr

/-- Response shape of the favorites endpoints. -/
structure FavResponse where
  status : Nat
  message : Option String
  deriving DecidableEq, Repr

/-- Embeds addFavorite (favoritesController.ts lines 70-105): a falsy userId
gives 401; a falsy required body field gives 400; an existing favorite for
(userId, movieId) gives 409 with no write; otherwise a new favorite document
is saved, with note defaulted to the empty string. -/
def addFavorite (userId : Option String) (body : FavoriteBody)
    (db : List FavoriteRec) : FavResponse × List FavoriteRec :=
  match userId with
  | none => ({ status := 401, message := some "User not authenticated" }, db)
  | some uid =>
    if uid == "" then
      ({ status := 401, message := some "User not authenticated" }, db)
    else if body.movieId == "" || body.title == "" || body.poster == "" then
      ({ status := 400,
         message := some "Missing required fields: movieId, title, poster" }, db)
    else
      match db.find? (fun f => f.userId == uid && f.movieId == body.movieId) with
      | some _ =>
          ({ status := 409,
             message := some "This movie is already in your favorites" }, db)
      | none =>
          ({ status := 201, message := none },
           db ++ [{ id := db.length, userId := uid, movieId := body.movieId,
                    title := body.title, poster := body.poster,
                    note := (body.note.getD "") }])

/-- Embeds updateFavoriteNote (favoritesController.ts lines 115-147): a falsy
userId gives 401, a missing id gives 400; the lookup requires both the
document id and the requesting user, so a favorite owned by someone else is a
404 with no write; on a match the note is replaced on that document. -/
def updateFavoriteNote (userId : Option String) (favId : Option Nat)
    (note : Option String) (db : List FavoriteRec) :
    FavResponse × List FavoriteRec :=
  match userId with
  | none => ({ status := 401, message := some "User not authenticated" }, db)
  | some uid =>
    if uid == "" then
      ({ status := 401, message := some "User not authenticated" }, db)
    else
      match favId with
      | none => ({ status := 400, message := some "Favorite ID is required" }, db)
      | some fid =>
        match db.find? (fun f => f.id == fid && f.userId == uid) with
        | none => ({ status := 404, message := some "Favorite not found" }, db)
        | some f =>
            ({ status := 200, message := some "Favorite updated successfully" },
             db.map (fun f2 =>
               if f2.id == f.id then { f2 with note := (note.getD "") } else f2))

/-- Embeds removeFavorite (favoritesController.ts lines 156-185): a falsy
userId gives 401, a missing movieId gives 400; findOneAndDelete with both the
requesting user and the movie deletes the matched document or gives 404. -/
def removeFavorite (userId : Option String) (movieId : Option String)
    (db : List FavoriteRec) : FavResponse × List FavoriteRec :=
  match userId with
  | none => ({ status := 401, message := some "User not authenticated" }, db)
  | some uid =>
    if uid == "" then
      ({ status := 401, message := some "User not authenticated" }, db)
    else
      match movieId with
      | none => ({ status := 400, message := some "Movie ID is required" }, db)
      | some mid =>
        if mid == "" then
          ({ status := 400, message := some "Movie ID is required" }, db)
        else
          match db.find? (fun f => f.userId == uid && f.movieId == mid) with
          | none =>
              ({ status := 404,
                 message := some "Movie not found or already removed" }, db)
          | some f =>
              ({ status := 200,
                 message := some "Movie removed from favorites successfully" },
               db.filter (fun f2 => f2.id != f.id))

/-- A stored comment document (models/Comment.ts).  id models the Mongo
ObjectId; documents carry distinct ids. -/
structure CommentRec where
  id : Nat
  userId : String
  movieId : String
  text : String
  deriving DecidableEq, Repr

/-- Embeds updateComment (commentController.ts lines 58-84): findOneAndUpdate
filters on both the comment id and the requesting user, so a comment owned by
another account is a 404 with no write; on a match the text of that document
is replaced. -/
def updateComment (requesterId : String) (commentId : Nat) (text : String)
    (db : List CommentRec) : SimpleResponse × List CommentRec :=
  match db.find? (fun c => c.id == commentId && c.userId == requesterId) with
  | none =>
      ({ status := 404, message := some "Comentario no encontrado o no autorizado",
         error := none }, db)
  | some c =>
      ({ status := 200, message := none, error := none },
       db.map (fun c2 => if c2.id == c.id then { c2 with text := text } else c2))

/-- Embeds deleteComment (commentController.ts lines 90-111): findOneAndDelete
filters on both the comment id and the requesting user, so a comment owned by
another account is a 404 with no write; on a match that document is deleted. -/
def deleteComment (requesterId : String) (commentId : Nat)
    (db : List CommentRec) : SimpleResponse × List CommentRec :=
  match db.find? (fun c => c.id == commentId && c.userId == requesterId) with
  | none =>
      ({ status := 404, message := some "Comentario no encontrado o no autorizado",
         error := none }, db)
  | some c =>
      ({ status := 200, message := some "Comentario eliminado correctamente",
         error := none },
       db.filter (fun c2 => c2.id != c.id))

/-! Concrete sample data used by witnesses and counterexamples. -/

/-- A concrete stored movie. -/
def sampleMovie : Movie :=
  { id := "m1", title := "Clip one", category := "General",
    externalId := some "777", createdAt := 1000 }

/-- A concrete stored account. -/
def anaUser : StoredUser :=
  { id := "uid0", firstName := "Ana", lastName := "Ruiz", age := 20,
    email := "ana@example.com", password := bcryptHash "Abcd1234!",
    passwordResetToken := none, passwordResetExpires := none }

/-- A concrete validated registration payload. -/
def anaData : RegisterData :=
  { firstName := "Ana", lastName := "Ruiz", age := 20,
    email := "ana@example.com", password := "Abcd1234!" }

/-! ## Claim theorems -/

/-- C4: with no signing key configured the token issuer does not refuse in a
non-development environment: generateToken signs with the literal default
secret fallback_secret_key (and verifyToken verifies with the same default),
contradicting the required fail-loudly behaviour. -/
theorem generateToken_uses_default_secret :
    generateToken { jwtSecret := none, jwtExpiresIn := none,
                    nodeEnv := "production" } "u1" "ana@example.com" =
      { payloadId := "u1", payloadEmail := "ana@example.com",
        secret := "fallback_secret_key", expiresIn := "2h" } ∧
    verifyToken { jwtSecret := none, jwtExpiresIn := none,
                  nodeEnv := "production" }
        (fun s t => JwtVerifyResult.decoded s t) "tok" =
      some ("fallback_secret_key", "tok") := by
  exact ⟨rfl, rfl⟩

/-- C5: the session gate rejects 401 "No token provided" when the extracted
bearer token is absent or falsy, rejects 500 when the verification call throws
into the guard, rejects 401 "Invalid or expired token" when verification
yields null, and otherwise proceeds with the decoded accountId and email
attached. -/
theorem authenticate_session_gate (header : Option String)
    (verify : String → VerifyOutcome) :
    (extractTokenFromHeader header = none →
       authenticate header verify = .reject 401 "No token provided") ∧
    (extractTokenFromHeader header = some "" →
       authenticate header verify = .reject 401 "No token provided") ∧
    (∀ t, extractTokenFromHeader header = some t → t ≠ "" →
      (verify t = .thrown →
         authenticate header verify = .reject 500 "Internal server error") ∧
      (verify t = .nullResult →
         authenticate header verify = .reject 401 "Invalid or expired token") ∧
      (∀ i e, verify t = .ok i e →
         authenticate header verify = .proceed i e)) := by
  refine ⟨fun h => by simp [authenticate, h], fun h => by simp [authenticate, h], ?_⟩
  intro t ht hne
  refine ⟨fun hv => ?_, fun hv => ?_, fun i e hv => ?_⟩ <;>
    simp [authenticate, ht, hne, hv]

/-- Witness for the session-gate theorem at concrete headers and verifiers. -/
theorem authenticate_session_gate_witness :
    authenticate none (fun _ => .nullResult) = .reject 401 "No token provided" ∧
    authenticate (some "Bearer ") (fun _ => .ok "u" "e") =
      .reject 401 "No token provided" ∧
    authenticate (some "Basic abc") (fun _ => .ok "u" "e") =
      .reject 401 "No token provided" ∧
    authenticate (some "Bearer tok1") (fun _ => .thrown) =
      .reject 500 "Internal server error" ∧
    authenticate (some "Bearer tok1") (fun _ => .nullResult) =
      .reject 401 "Invalid or expired token" ∧
    authenticate (some "Bearer tok1") (fun _ => .ok "u7" "a@b.c") =
      .proceed "u7" "a@b.c" :=
  ⟨(authenticate_session_gate none _).1 rfl,
   (authenticate_session_gate (some "Bearer ") _).2.1 (by decide),
   (authenticate_session_gate (some "Basic abc") _).1 (by decide),
   ((authenticate_session_gate (some "Bearer tok1") _).2.2 "tok1" (by decide)
      (by decide)).1 rfl,
   ((authenticate_session_gate (some "Bearer tok1") _).2.2 "tok1" (by decide)
      (by decide)).2.1 rfl,
   ((authenticate_session_gate (some "Bearer tok1") _).2.2 "tok1" (by decide)
      (by decide)).2.2 "u7" "a@b.c" rfl⟩

/-- C8: the registration response is built without reading the password — the
response is identical for any two payloads differing only in password — and no
key of the serialized user object is named password. -/
theorem registerUser_no_password_in_response (data : RegisterData)
    (db : List StoredUser) (p1 p2 : String) :
    (registerUser { data with password := p1 } db).1 =
      (registerUser { data with password := p2 } db).1 ∧
    ∀ kv ∈ ((registerUser data db).1.userFields.getD []), kv.1 ≠ "password" := by
  constructor
  · cases h : db.find? (fun u => u.email == data.email) with
    | none => simp [registerUser, h, registerResponseFields]
    | some u => simp [registerUser, h]
  · intro kv hkv
    cases h : db.find? (fun u => u.email == data.email) with
    | none =>
        simp [registerUser, h, registerResponseFields] at hkv
        rcases hkv with h1 | h1 | h1 | h1 <;> subst h1 <;> simp
    | some u => simp [registerUser, h] at hkv

/-- Witness for the registration-response theorem at a concrete payload. -/
theorem registerUser_no_password_in_response_witness :
    (registerUser { anaData with password := "Abcd1234!" } []).1 =
      (registerUser { anaData with password := "Zzzz9999?" } []).1 ∧
    ("id", "uid0").1 ≠ "password" :=
  ⟨(registerUser_no_password_in_response anaData [] "Abcd1234!" "Zzzz9999?").1,
   (registerUser_no_password_in_response anaData [] "x" "x").2
     ("id", "uid0") (by decide)⟩

/-- C3 counterexample: with one stored account, forgot-password answers 200
for the existing email but 400 with a telling error for a missing one — the
two responses are distinguishable, so the always-success claim fails. -/
theorem forgotPassword_enumeration_counterexample :
    (forgotPassword [anaUser] "ana@example.com" "r1" 0 true).1.status = 200 ∧
    (forgotPassword [anaUser] "bob@example.com" "r1" 0 true).1.status = 400 ∧
    (forgotPassword [anaUser] "bob@example.com" "r1" 0 true).1.error =
      some "There is no user with this email address." := by
  decide

/-- C3 amended: forgot-password answers 400 error-shaped when no account has
the submitted email and 200 success-shaped (500 if the mail send fails) when
one does, so existing and missing emails are distinguishable. -/
theorem forgotPassword_amended (db : List StoredUser) (email rnd : String)
    (now : Nat) :
    ((∀ u ∈ db, u.email ≠ email) →
       forgotPassword db email rnd now true =
         ({ status := 400, message := none,
            error := some "There is no user with this email address." }, db)) ∧
    (∀ u, db.find? (fun v => v.email == email) = some u →
       (forgotPassword db email rnd now true).1.status = 200 ∧
       (forgotPassword db email rnd now false).1.status = 500) := by
  constructor
  · intro h
    have hn : db.find? (fun v => v.email == email) = none := by
      rw [List.find?_eq_none]
      intro a ha
      simpa using h a ha
    simp [forgotPassword, hn]
  · intro u hu
    constructor <;> simp [forgotPassword, hu]

/-- Witness for the amended forgot-password theorem at a concrete store. -/
theorem forgotPassword_amended_witness :
    forgotPassword [anaUser] "bob@example.com" "r1" 0 true =
      ({ status := 400, message := none,
         error := some "There is no user with this email address." }, [anaUser]) ∧
    (forgotPassword [anaUser] "ana@example.com" "r1" 0 true).1.status = 200 :=
  ⟨(forgotPassword_amended [anaUser] "bob@example.com" "r1" 0).1 (by decide),
   ((forgotPassword_amended [anaUser] "ana@example.com" "r1" 0).2 anaUser
      (by decide)).1⟩

/-- C1 counterexample: on an empty reachable store the listing response is not
tagged source=store (no backfill happens and nothing is written), and on an
unreachable store the response is a 500 error, not an external list tagged
source=external. -/
theorem getMovies_source_counterexample :
    (getMovies (StoreState.reachable [])).1.source ≠ some "store" ∧
    (getMovies (StoreState.reachable [])).2.count Effect.storeWrite = 0 ∧
    (getMovies (StoreState.reachable [])).2.count Effect.providerFetch = 0 ∧
    (getMovies StoreState.unreachable).1.source ≠ some "external" ∧
    (getMovies StoreState.unreachable).1.status = 500 := by
  decide

/-- C1 amended: getMovies only queries the catalog store — it never fetches
from the external provider and never writes.  A reachable store with an empty
query result yields a 200 with empty data, a message and no source tag; a
non-empty result is returned tagged source=cloudinary with its total; an
unreachable store yields a 500 error response. -/
theorem getMovies_amended (ms : List Movie) :
    (Effect.providerFetch ∉ (getMovies (StoreState.reachable ms)).2 ∧
     Effect.storeWrite ∉ (getMovies (StoreState.reachable ms)).2) ∧
    (storeListQuery ms = [] →
       (getMovies (StoreState.reachable ms)).1 =
         { status := 200, source := none, data := [], total := none,
           message := some "No movies available. Upload some movies to get started!",
           error := none }) ∧
    (storeListQuery ms ≠ [] →
       (getMovies (StoreState.reachable ms)).1 =
         { status := 200, source := some "cloudinary", data := storeListQuery ms,
           total := some (storeListQuery ms).length, message := none,
           error := none }) ∧
    getMovies StoreState.unreachable =
      ({ status := 500, source := none, data := [], total := none, message := none,
         error := some "Error getting movies" }, [Effect.storeQuery]) := by
  refine ⟨?_, ?_, ?_, rfl⟩
  · by_cases h : (storeListQuery ms).length = 0 <;> simp [getMovies, h]
  · intro h
    simp [getMovies, h]
  · intro h
    have hl : ¬ (storeListQuery ms).length = 0 := by
      simpa [List.length_eq_zero] using h
    simp [getMovies, hl]

/-- Witness for the amended getMovies theorem at a one-movie store. -/
theorem getMovies_amended_witness :
    storeListQuery [sampleMovie] ≠ [] ∧
    (getMovies (StoreState.reachable [sampleMovie])).1 =
      { status := 200, source := some "cloudinary",
        data := storeListQuery [sampleMovie],
        total := some (storeListQuery [sampleMovie]).length, message := none,
        error := none } :=
  ⟨by decide, (getMovies_amended [sampleMovie]).2.2.1 (by decide)⟩

/-- C2 counterexample: two movie-listing calls in a row — in particular any
two within 60 seconds, since the handler never reads a clock — perform zero
external-provider calls in total, not exactly one, both when the store is
reachable-and-empty and when it is unreachable. -/
theorem getMovies_provider_count_counterexample :
    ((getMovies (StoreState.reachable [])).2 ++
       (getMovies (StoreState.reachable [])).2).count Effect.providerFetch ≠ 1 ∧
    ((getMovies StoreState.unreachable).2 ++
       (getMovies StoreState.unreachable).2).count Effect.providerFetch ≠ 1 := by
  decide

/-- C2 amended: the movie-listing handler performs no external-provider call
on any store state, so no sequence of calls triggers one; the cache utility it
declares but never invokes does expire by wall clock with a 60000 ms TTL — a
lookup at most 60 s after a set returns the cached data, and a later lookup
misses and evicts the entry. -/
theorem getMovies_cache_amended (st : StoreState) (key : String)
    (data : List Movie) (t0 t1 : Nat) :
    (getMovies st).2.count Effect.providerFetch = 0 ∧
    (t1 ≤ t0 + CACHE_TTL →
       getFromCache (setCache [] t0 key data) t1 key =
         (some data, setCache [] t0 key data)) ∧
    (t0 + CACHE_TTL < t1 →
       getFromCache (setCache [] t0 key data) t1 key = (none, [])) := by
  refine ⟨?_, ?_, ?_⟩
  · cases st with
    | unreachable => decide
    | reachable ms =>
        by_cases h : (storeListQuery ms).length = 0 <;> simp [getMovies, h]
  · intro h
    have hn : ¬ ((⟨data, t0 + CACHE_TTL⟩ : CacheEntry).expires < t1) := by
      simpa using Nat.not_lt.mpr h
    simp [getFromCache, setCache, hn]
  · intro h
    simp [getFromCache, setCache, h]

/-- Witness for the amended cache theorem: a hit 30 s after the set, a miss
with eviction 61 s after. -/
theorem getMovies_cache_amended_witness :
    ((30000 : Nat) ≤ 0 + CACHE_TTL ∧
      getFromCache (setCache [] 0 "popular" [sampleMovie]) 30000 "popular" =
        (some [sampleMovie], setCache [] 0 "popular" [sampleMovie])) ∧
    ((0 + CACHE_TTL : Nat) < 61000 ∧
      getFromCache (setCache [] 0 "popular" [sampleMovie]) 61000 "popular" =
        (none, [])) :=
  ⟨⟨by decide,
    (getMovies_cache_amended StoreState.unreachable "popular" [sampleMovie] 0
      30000).2.1 (by decide)⟩,
   ⟨by decide,
    (getMovies_cache_amended StoreState.unreachable "popular" [sampleMovie] 0
      61000).2.2 (by decide)⟩⟩

/-! Helper lemmas for the rating upsert. -/

/-- The number of stored ratings for one (userId, movieId) key. -/
def ratingCount (db : List RatingRec) (uid mid : String) : Nat :=
  (db.filter (fun r => r.userId == uid && r.movieId == mid)).length

theorem ratingCount_eq_zero_iff (db : List RatingRec) (uid mid : String) :
    ratingCount db uid mid = 0 ↔
      ∀ r ∈ db, ¬(r.userId = uid ∧ r.movieId = mid) := by
  simp [ratingCount, List.length_eq_zero, List.filter_eq_nil_iff]

theorem updateFirstRating_count (uid mid : String) (v : Int) :
    ∀ db : List RatingRec,
      ratingCount (updateFirstRating db uid mid v) uid mid =
        ratingCount db uid mid := by
  intro db
  induction db with
  | nil => rfl
  | cons a as ih =>
      by_cases h : (a.userId == uid && a.movieId == mid) = true
      · simp [updateFirstRating, ratingCount, List.filter_cons, h]
      · simp only [updateFirstRating, h, if_false, Bool.false_eq_true]
        simp only [ratingCount, List.filter_cons, h, Bool.false_eq_true, if_false]
        exact ih

theorem updateFirstRating_value (uid mid : String) (v : Int) :
    ∀ db : List RatingRec, ratingCount db uid mid ≤ 1 →
      ∀ r ∈ updateFirstRating db uid mid v, r.userId = uid → r.movieId = mid →
        r.rating = v := by
  intro db
  induction db with
  | nil =>
      intro _ r hr
      simp [updateFirstRating] at hr
  | cons a as ih =>
      intro hc r hr hu hm
      by_cases h : (a.userId == uid && a.movieId == mid) = true
      · simp only [updateFirstRating, h, if_true] at hr
        rcases List.mem_cons.mp hr with rfl | hr2
        · rfl
        · have hc0 : ratingCount as uid mid = 0 := by
            have hcc : ratingCount (a :: as) uid mid =
                ratingCount as uid mid + 1 := by
              simp [ratingCount, List.filter_cons, h]
            omega
          exact absurd ⟨hu, hm⟩
            ((ratingCount_eq_zero_iff as uid mid).mp hc0 r hr2)
      · simp only [updateFirstRating, h, Bool.false_eq_true, if_false] at hr
        rcases List.mem_cons.mp hr with rfl | hr2
        · exact absurd (by simp [hu, hm]) h
        · have hcc : ratingCount (a :: as) uid mid = ratingCount as uid mid := by
            simp [ratingCount, List.filter_cons, h]
          exact ih (by omega) r hr2 hu hm

theorem ratingCount_pos_of_find (db : List RatingRec) (uid mid : String)
    (r0 : RatingRec)
    (h : db.find? (fun r => r.userId == uid && r.movieId == mid) = some r0) :
    1 ≤ ratingCount db uid mid := by
  have hmem := List.mem_of_find?_eq_some h
  have hpred := List.find?_some h
  have hmf : r0 ∈ db.filter (fun r => r.userId == uid && r.movieId == mid) :=
    List.mem_filter.mpr ⟨hmem, hpred⟩
  have hpos := List.length_pos.mpr (List.ne_nil_of_mem hmf)
  simpa [ratingCount] using hpos

/-- One valid rating submission on a store with at most one rating for the key
leaves exactly one rating for the key, holding the submitted value. -/
theorem addRating_upsert_step (uid mid : String) (v : Int) (db : List RatingRec)
    (hm : mid ≠ "") (h1 : 1 ≤ v) (h5 : v ≤ 5)
    (hc : ratingCount db uid mid ≤ 1) :
    ratingCount (addRating uid ⟨some mid, some v⟩ db).2 uid mid = 1 ∧
    ∀ r ∈ (addRating uid ⟨some mid, some v⟩ db).2,
      r.userId = uid → r.movieId = mid → r.rating = v := by
  have hmid : (mid == "") = false := beq_eq_false_iff_ne.mpr hm
  have hv1 : decide (v < 1) = false := decide_eq_false (not_lt.mpr h1)
  have hv5 : decide (v > 5) = false := decide_eq_false (not_lt.mpr h5)
  cases hfind : db.find? (fun r => r.userId == uid && r.movieId == mid) with
  | none =>
      have hall := List.find?_eq_none.mp hfind
      have hfe : db.filter (fun r => r.userId == uid && r.movieId == mid) = [] := by
        rw [List.filter_eq_nil_iff]
        intro r hr
        exact hall r hr
      constructor
      · simp [addRating, hmid, hv1, hv5, hfind, ratingCount, List.filter_append, hfe]
      · intro r hr hu hmv
        simp [addRating, hmid, hv1, hv5, hfind] at hr
        rcases hr with hr2 | hr2
        · exact absurd (by simp [hu, hmv]) (hall r hr2)
        · rw [hr2]
  | some r0 =>
      have hpos := ratingCount_pos_of_find db uid mid r0 hfind
      have hone : ratingCount db uid mid = 1 := le_antisymm hc hpos
      have hred : (addRating uid ⟨some mid, some v⟩ db).2 =
          updateFirstRating db uid mid v := by
        simp [addRating, hmid, hv1, hv5, hfind]
      rw [hred]
      exact ⟨(updateFirstRating_count uid mid v db).trans hone,
             updateFirstRating_value uid mid v db hc⟩

/-- C6: rating submission is an upsert — submitting the same (account, movie,
value) twice against a store holding at most one rating for that key leaves
exactly one stored rating for the key and its value is the submitted one. -/
theorem addRating_idempotent_upsert (uid mid : String) (v : Int)
    (db : List RatingRec) (hm : mid ≠ "") (h1 : 1 ≤ v) (h5 : v ≤ 5)
    (hc : ratingCount db uid mid ≤ 1) :
    ratingCount (addRating uid ⟨some mid, some v⟩
        (addRating uid ⟨some mid, some v⟩ db).2).2 uid mid = 1 ∧
    ∀ r ∈ (addRating uid ⟨some mid, some v⟩
        (addRating uid ⟨some mid, some v⟩ db).2).2,
      r.userId = uid → r.movieId = mid → r.rating = v := by
  have step1 := addRating_upsert_step uid mid v db hm h1 h5 hc
  exact addRating_upsert_step uid mid v _ hm h1 h5 (le_of_eq step1.1)

/-- Witness for the rating-upsert theorem at a concrete account and movie. -/
theorem addRating_idempotent_upsert_witness :
    ratingCount (addRating "userA" ⟨some "m1", some 4⟩
        (addRating "userA" ⟨some "m1", some 4⟩ []).2).2 "userA" "m1" = 1 :=
  (addRating_idempotent_upsert "userA" "m1" 4 [] (by decide) (by decide)
    (by decide) (by decide)).1

/-- The favorite document addFavorite saves on success. -/
def mkNewFavorite (uid : String) (body : FavoriteBody) (db : List FavoriteRec) :
    FavoriteRec :=
  { id := db.length, userId := uid, movieId := body.movieId,
    title := body.title, poster := body.poster, note := body.note.getD "" }

/-- C7: after a successful favorite of a fresh (account, movie) pair, a second
identical attempt is answered 409 and leaves the favorites store exactly as it
was — no second record is created and the existing one is untouched. -/
theorem addFavorite_duplicate_conflict (uid : String) (body : FavoriteBody)
    (db : List FavoriteRec) (hu : uid ≠ "") (hm : body.movieId ≠ "")
    (ht : body.title ≠ "") (hp : body.poster ≠ "")
    (hnew : ∀ f ∈ db, ¬(f.userId = uid ∧ f.movieId = body.movieId)) :
    (addFavorite (some uid) body db).1.status = 201 ∧
    (addFavorite (some uid) body (addFavorite (some uid) body db).2).1 =
      { status := 409,
        message := some "This movie is already in your favorites" } ∧
    (addFavorite (some uid) body (addFavorite (some uid) body db).2).2 =
      (addFavorite (some uid) body db).2 := by
  have hu' : (uid == "") = false := beq_eq_false_iff_ne.mpr hu
  have hm' : (body.movieId == "") = false := beq_eq_false_iff_ne.mpr hm
  have ht' : (body.title == "") = false := beq_eq_false_iff_ne.mpr ht
  have hp' : (body.poster == "") = false := beq_eq_false_iff_ne.mpr hp
  have hfind : db.find?
      (fun f => f.userId == uid && f.movieId == body.movieId) = none := by
    rw [List.find?_eq_none]
    intro f hf
    simpa using hnew f hf
  have hstep : addFavorite (some uid) body db =
      ({ status := 201, message := none },
       db ++ [mkNewFavorite uid body db]) := by
    simp [addFavorite, mkNewFavorite, hu', hm', ht', hp', hfind]
  refine ⟨by rw [hstep], ?_⟩
  cases hf2 : (addFavorite (some uid) body db).2.find?
      (fun f => f.userId == uid && f.movieId == body.movieId) with
  | none =>
      exfalso
      have hall := List.find?_eq_none.mp hf2
      have hmem : mkNewFavorite uid body db ∈ (addFavorite (some uid) body db).2 := by
        rw [hstep]
        exact List.mem_append_right _ (List.mem_singleton.mpr rfl)
      exact hall _ hmem (by simp [mkNewFavorite])
  | some f =>
      have h2 : (addFavorite (some uid) body db).2 =
          db ++ [mkNewFavorite uid body db] := congrArg Prod.snd hstep
      rw [h2] at hf2 ⊢
      constructor <;> simp [addFavorite, hu', hm', ht', hp', hf2]

/-- Witness for the duplicate-favorite theorem at a concrete pair. -/
theorem addFavorite_duplicate_conflict_witness :
    (addFavorite (some "userA") ⟨"m1", "Clip one", "p.jpg", none⟩ []).1.status
      = 201 ∧
    (addFavorite (some "userA") ⟨"m1", "Clip one", "p.jpg", none⟩
        (addFavorite (some "userA") ⟨"m1", "Clip one", "p.jpg", none⟩ []).2).1 =
      { status := 409,
        message := some "This movie is already in your favorites" } :=
  ⟨(addFavorite_duplicate_conflict "userA" ⟨"m1", "Clip one", "p.jpg", none⟩ []
      (by decide) (by decide) (by decide) (by decide) (by simp)).1,
   (addFavorite_duplicate_conflict "userA" ⟨"m1", "Clip one", "p.jpg", none⟩ []
      (by decide) (by decide) (by decide) (by decide) (by simp)).2.1⟩

/-- C9: an update or delete attempt by account B on a comment or favorite
owned by a different account A yields a not-found outcome and leaves the
stored record — indeed the whole store — unchanged, and B's favorite removal
never deletes A's record.  Document ids are assumed unique, as for Mongo
ObjectIds. -/
theorem ownership_enforcement (A B t no : String) (hAB : B ≠ A) (hB : B ≠ "") :
    (∀ (db : List CommentRec) (c : CommentRec), c ∈ db → c.userId = A →
       (∀ c2, c2 ∈ db → c2.id = c.id → c2 = c) →
       updateComment B c.id t db =
         ({ status := 404,
            message := some "Comentario no encontrado o no autorizado",
            error := none }, db) ∧
       deleteComment B c.id db =
         ({ status := 404,
            message := some "Comentario no encontrado o no autorizado",
            error := none }, db)) ∧
    (∀ (db : List FavoriteRec) (f : FavoriteRec), f ∈ db → f.userId = A →
       (∀ f2, f2 ∈ db → f2.id = f.id → f2 = f) →
       updateFavoriteNote (some B) (some f.id) (some no) db =
         ({ status := 404, message := some "Favorite not found" }, db) ∧
       f ∈ (removeFavorite (some B) (some f.movieId) db).2) := by
  have hB' : (B == "") = false := beq_eq_false_iff_ne.mpr hB
  constructor
  · intro db c hc hA huniq
    have hfind : db.find? (fun c2 => c2.id == c.id && c2.userId == B) = none := by
      rw [List.find?_eq_none]
      intro c2 h2
      simp only [Bool.and_eq_true, beq_iff_eq, not_and]
      intro hid
      rw [huniq c2 h2 hid, hA]
      exact fun h => hAB h.symm
    exact ⟨by simp [updateComment, hfind], by simp [deleteComment, hfind]⟩
  · intro db f hf hA huniq
    have hfind : db.find? (fun f2 => f2.id == f.id && f2.userId == B) = none := by
      rw [List.find?_eq_none]
      intro f2 h2
      simp only [Bool.and_eq_true, beq_iff_eq, not_and]
      intro hid
      rw [huniq f2 h2 hid, hA]
      exact fun h => hAB h.symm
    refine ⟨by simp [updateFavoriteNote, hB', hfind], ?_⟩
    by_cases hmid : (f.movieId == "") = true
    · simpa [removeFavorite, hB', hmid] using hf
    · have hmid' : (f.movieId == "") = false := by
        simpa using hmid
      cases hg : db.find? (fun g => g.userId == B && g.movieId == f.movieId) with
      | none => simpa [removeFavorite, hB', hmid', hg] using hf
      | some g =>
          have hgmem := List.mem_of_find?_eq_some hg
          have hgpred := List.find?_some hg
          have hgid : g.id ≠ f.id := by
            intro hid
            rw [huniq g hgmem hid] at hgpred
            simp only [Bool.and_eq_true, beq_iff_eq] at hgpred
            rw [hA] at hgpred
            exact hAB hgpred.1.symm
          simp only [removeFavorite, hB', Bool.false_eq_true, if_false,
            hmid', hg]
          exact List.mem_filter.mpr ⟨hf, by simpa using fun h => hgid h.symm⟩

/-- A comment owned by userA, used by the ownership witness. -/
def sampleComment : CommentRec :=
  { id := 0, userId := "userA", movieId := "m1", text := "nice" }

/-- A favorite owned by userA, used by the ownership witness. -/
def sampleFavorite : FavoriteRec :=
  { id := 0, userId := "userA", movieId := "m1", title := "Clip one",
    poster := "p.jpg", note := "" }

/-- Witness for the ownership theorem at concrete accounts and records. -/
theorem ownership_enforcement_witness :
    (updateComment "userB" sampleComment.id "hacked" [sampleComment] =
       ({ status := 404,
          message := some "Comentario no encontrado o no autorizado",
          error := none }, [sampleComment]) ∧
     deleteComment "userB" sampleComment.id [sampleComment] =
       ({ status := 404,
          message := some "Comentario no encontrado o no autorizado",
          error := none }, [sampleComment])) ∧
    (updateFavoriteNote (some "userB") (some sampleFavorite.id) (some "x")
        [sampleFavorite] =
       ({ status := 404, message := some "Favorite not found" },
        [sampleFavorite]) ∧
     sampleFavorite ∈
       (removeFavorite (some "userB") (some sampleFavorite.movieId)
          [sampleFavorite]).2) :=
  ⟨(ownership_enforcement "userA" "userB" "hacked" "x" (by decide)
      (by decide)).1 [sampleComment] sampleComment (by simp) (by decide)
      (by intro c2 h2 _; simpa using h2),
   (ownership_enforcement "userA" "userB" "hacked" "x" (by decide)
      (by decide)).2 [sampleFavorite] sampleFavorite (by simp) (by decide)
      (by intro f2 h2 _; simpa using h2)⟩

/-- C10: a successful resetPassword clears the stored reset-token hash and
expiry on the matched account, so a second submission with the same token —
when that account was the only holder of the token hash — is rejected 400 as
invalid or expired and leaves the store, hence the password, unchanged. -/
theorem resetPassword_single_use (db : List StoredUser)
    (token pw1 pw2 : String) (now1 now2 : Nat) (u0 : StoredUser)
    (hv1 : resetPasswordValid token pw1 pw1 = true)
    (hv2 : resetPasswordValid token pw2 pw2 = true)
    (hfind : db.find? (fun u => u.passwordResetToken == some (sha256Hex token)
        && (match u.passwordResetExpires with
            | some e => decide (now1 < e)
            | none => false)) = some u0)
    (huniq : ∀ v ∈ db, v.passwordResetToken = some (sha256Hex token) →
       v.id = u0.id) :
    (resetPassword db token pw1 pw1 now1).1.status = 200 ∧
    resetPassword (resetPassword db token pw1 pw1 now1).2 token pw2 pw2 now2 =
      ({ status := 400, message := none,
         error := some "Token inválido o expirado" },
       (resetPassword db token pw1 pw1 now1).2) := by
  have hstep : (resetPassword db token pw1 pw1 now1).2 = db.map (fun v =>
      if v.id == u0.id then
        { v with password := bcryptHash pw1, passwordResetToken := none,
                 passwordResetExpires := none }
      else v) := by
    simp [resetPassword, hv1, hfind]
  have h200 : (resetPassword db token pw1 pw1 now1).1.status = 200 := by
    simp [resetPassword, hv1, hfind]
  have hnone : (resetPassword db token pw1 pw1 now1).2.find?
      (fun u => u.passwordResetToken == some (sha256Hex token)
        && (match u.passwordResetExpires with
            | some e => decide (now2 < e)
            | none => false)) = none := by
    rw [hstep, List.find?_eq_none]
    intro v hv
    rcases List.mem_map.mp hv with ⟨w, hw, rfl⟩
    by_cases hid : (w.id == u0.id) = true
    · simp [hid]
    · simp only [hid, Bool.false_eq_true, if_false]
      simp only [Bool.and_eq_true, beq_iff_eq, not_and]
      intro htok
      exact absurd (huniq w hw htok) (by simpa using hid)
  refine ⟨h200, ?_⟩
  generalize hX : (resetPassword db token pw1 pw1 now1).2 = X at hnone ⊢
  simp [resetPassword, hv2, hnone]

/-- The sample account holding a valid reset-token hash. -/
def anaWithToken : StoredUser :=
  { anaUser with passwordResetToken := some (sha256Hex "tok123"),
                 passwordResetExpires := some 5000 }

/-- Witness for the single-use reset theorem at a concrete account. -/
theorem resetPassword_single_use_witness :
    (resetPassword [anaWithToken] "tok123" "Abcd1234!" "Abcd1234!" 0).1.status
      = 200 ∧
    resetPassword (resetPassword [anaWithToken] "tok123" "Abcd1234!"
        "Abcd1234!" 0).2 "tok123" "Wxyz5678?" "Wxyz5678?" 0 =
      ({ status := 400, message := none,
         error := some "Token inválido o expirado" },
       (resetPassword [anaWithToken] "tok123" "Abcd1234!" "Abcd1234!" 0).2) :=
  resetPassword_single_use [anaWithToken] "tok123" "Abcd1234!" "Wxyz5678?" 0 0
    anaWithToken (by decide) (by decide) (by decide)
    (by intro v hv _; simp only [List.mem_singleton] at hv; rw [hv])

end Streamia
